import Mathlib

/-
  Verification development for the curlev repository.

  The definitions below are shallow embeddings of the C++ sources:
    - src/src/utils/string_utils.cpp and src/include/utils/string_utils.hpp
      (trim, svtol, svtoul, equal_ascii_ci, parse_cskv)
    - src/src/options.cpp, src/src/authentication.cpp, src/src/certificates.cpp
      (the CSKV configuration parsers)
    - src/include/wrapper.hpp (the Wrapper state machine: start, join,
      setters, clear, async_cb, cb_protocol, do_if_idle)
    - src/src/async.cpp (the ASync engine: request_completed, post_to_wrapper,
      abort_request, uv_restart_cb, invoke_wrapper, curl_cb_write,
      curl_cb_header)

  Strings are modelled as List Char; machine integers as Nat / Int with the
  overflow checks written out exactly as the source performs them.
-/

namespace curlev

abbrev LC := List Char

/-- C isspace in the default locale: space, \t, \n, \v, \f, \r. -/
def is_space (c : Char) : Bool :=
  c == ' ' || c == '\t' || c == '\n' || c == Char.ofNat 11 || c == Char.ofNat 12 || c == '\r'

/-- C isdigit: the ASCII decimal digits. -/
def is_digit (c : Char) : Bool :=
  '0' ≤ c && c ≤ '9'

/-- ASCII tolower, as used by strcasecmp in equal_ascii_ci. -/
def to_lower_ascii (c : Char) : Char :=
  if 'A' ≤ c && c ≤ 'Z' then Char.ofNat (c.toNat + 32) else c

/-- Helper turning a Lean string literal into the List Char representation. -/
def lc (s : String) : LC := s.data

/-- From string_utils.cpp trim: remove the leading and trailing white space
    (the C++ version computes the first and last non-space positions; this is
    the same as dropping spaces from the left and then from the right). -/
def trim (s : LC) : LC :=
  ((s.dropWhile is_space).reverse.dropWhile is_space).reverse

/-- From string_utils.cpp svtol: the digit-accumulation loop.
    value = value * 10 + digit, failing as soon as value exceeds max;
    a non-digit character fails the whole conversion. -/
def svtol_loop (max : Nat) : Nat → LC → Option Nat
  | value, [] => some value
  | value, c :: cs =>
    if is_digit c then
      let v := value * 10 + (c.toNat - Char.toNat '0')
      if v > max then none else svtol_loop max v cs
    else none

/-- numeric_limits<long>::max() on the LP64 targets the code runs on. -/
def c_long_max : Nat := 2 ^ 63 - 1

/-- From string_utils.cpp svtol: optional minus sign (which bumps the
    admissible magnitude by one), then digits only, overflow checked. -/
def svtol (s : LC) : Option Int :=
  match s with
  | '-' :: rest =>
    if rest.isEmpty then none
    else (svtol_loop (c_long_max + 1) 0 rest).map (fun v => -(v : Int))
  | _ =>
    if s.isEmpty then none
    else (svtol_loop c_long_max 0 s).map (fun v => (v : Int))

/-- numeric_limits<unsigned long>::max() on the LP64 targets the code runs on. -/
def c_ulong_max : Nat := 2 ^ 64 - 1

/-- From string_utils.cpp svtoul: the digit loop with the pre-multiplication
    overflow checks (value > max / 10, then value * 10 > max - digit). -/
def svtoul_loop (max : Nat) : Nat → LC → Option Nat
  | value, [] => some value
  | value, c :: cs =>
    if is_digit c then
      let digit := c.toNat - Char.toNat '0'
      if value > max / 10 then none
      else
        let v := value * 10
        if v > max - digit then none
        else svtoul_loop max (v + digit) cs
    else none

/-- From string_utils.cpp svtoul: empty input fails, then the digit loop. -/
def svtoul (s : LC) : Option Nat :=
  if s.isEmpty then none else svtoul_loop c_ulong_max 0 s

/-- From string_utils.cpp equal_ascii_ci: equal length and equal after ASCII
    case folding (strcasecmp equality). -/
def equal_ascii_ci (a b : LC) : Bool :=
  a.length == b.length && a.map to_lower_ascii == b.map to_lower_ascii

/-- One iteration of the parse_cskv loop body after the comma split:
    find the first =, fail if absent, otherwise trim the key (before =) and
    the value (after =). From string_utils.hpp parse_cskv. -/
def seg_key_value (seg : LC) : Option (LC × LC) :=
  match seg.findIdx? (fun c => c == '=') with
  | none => none
  | some i => some (trim (seg.take i), trim (seg.drop (i + 1)))

lemma length_dropWhile_le (p : Char → Bool) (l : LC) :
    (l.dropWhile p).length ≤ l.length := by
  induction l with
  | nil => simp [List.dropWhile]
  | cons c cs ih =>
    simp only [List.dropWhile]
    cases p c <;> simp <;> omega

lemma tail_dropWhile_lt (p : Char → Bool) (s : LC) (h : ¬ s = []) :
    ((s.dropWhile p).tail).length < s.length := by
  have hlen : 0 < s.length := List.length_pos.mpr h
  cases hd : s.dropWhile p with
  | nil => simpa using hlen
  | cons a t =>
    have := length_dropWhile_le p s
    rw [hd] at this
    simp only [List.tail_cons]
    simp at this
    omega

/-- From string_utils.hpp parse_cskv: the while loop.  Each iteration takes
    the text before the first comma as the key=value segment, removes it
    (and the comma) from the front, fails if the segment has no =, otherwise
    invokes the handler on the trimmed key and value; a false handler result
    stops the parse with failure.  The handler is modelled in state-passing
    style (the C++ handler is a closure mutating its captures). -/
def parse_cskv {σ : Type} (h : σ → LC → LC → σ × Bool) (st : σ) (s : LC) : σ × Bool :=
  if hs : s = [] then (st, true)
  else
    let kv := s.takeWhile (fun c => c != ',')
    let rest := (s.dropWhile (fun c => c != ',')).tail
    match seg_key_value kv with
    | none => (st, false)
    | some key_value =>
      let r := h st key_value.1 key_value.2
      if r.2 then parse_cskv h r.1 rest else (r.1, false)
termination_by s.length
decreasing_by exact tail_dropWhile_lt _ s hs

/-- The comma decomposition performed by the parse_cskv loop: the list of
    key=value segments, in order (an empty input yields no segment). -/
def split_commas (s : LC) : List LC :=
  if hs : s = [] then []
  else
    (s.takeWhile (fun c => c != ',')) ::
      split_commas ((s.dropWhile (fun c => c != ',')).tail)
termination_by s.length
decreasing_by exact tail_dropWhile_lt _ s hs

/-- The parse_cskv loop, rewritten over the list of comma segments.
    parse_cskv_eq_segs proves it equal to parse_cskv. -/
def parse_segs {σ : Type} (h : σ → LC → LC → σ × Bool) (st : σ) : List LC → σ × Bool
  | [] => (st, true)
  | seg :: rest =>
    match seg_key_value seg with
    | none => (st, false)
    | some key_value =>
      let r := h st key_value.1 key_value.2
      if r.2 then parse_segs h r.1 rest else (r.1, false)

lemma parse_cskv_eq_segs {σ : Type} (h : σ → LC → LC → σ × Bool) (st : σ) (s : LC) :
    parse_cskv h st s = parse_segs h st (split_commas s) := by
  have main : ∀ n (s : LC), s.length = n → ∀ st : σ,
      parse_cskv h st s = parse_segs h st (split_commas s) := by
    intro n
    induction n using Nat.strong_induction_on with
    | _ n ih =>
      intro s hn st
      by_cases hemp : s = []
      · subst hemp
        rw [parse_cskv, split_commas]
        simp [parse_segs]
      · rw [parse_cskv, split_commas]
        rw [dif_neg hemp, dif_neg hemp]
        cases hkv : seg_key_value (s.takeWhile (fun c => c != ',')) with
        | none => simp [parse_segs, hkv]
        | some key_value =>
          simp only [parse_segs, hkv]
          set r := h st key_value.1 key_value.2 with hr
          cases hr2 : r.2 with
          | false => simp [hr2]
          | true =>
            simp only [hr2, if_true]
            exact ih _ (hn ▸ tail_dropWhile_lt _ s hemp) _ rfl _
  exact main s.length s rfl st

/-- Observer for handler invocations: the handler is run unchanged, and each
    invocation (key, value) is appended to a trace. -/
def traced {σ : Type} (h : σ → LC → LC → σ × Bool) :
    σ × List (LC × LC) → LC → LC → (σ × List (LC × LC)) × Bool :=
  fun p k v => (((h p.1 k v).1, p.2 ++ [(k, v)]), (h p.1 k v).2)

/-- The trimmed (key, value) pair of every segment, provided each segment
    contains an = sign; none as soon as one segment has no =. -/
def seg_pairs : List LC → Option (List (LC × LC))
  | [] => some []
  | seg :: rest =>
    match seg_key_value seg with
    | none => none
    | some kv => (seg_pairs rest).map (fun ps => kv :: ps)

/-- Folding the handler over a list of (key, value) pairs: the state after
    the successive handler invocations. -/
def fold_st {σ : Type} (h : σ → LC → LC → σ × Bool) (st : σ) (ps : List (LC × LC)) : σ :=
  ps.foldl (fun a p => (h a p.1 p.2).1) st

lemma seg_pairs_length : ∀ (segs : List LC) (ps : List (LC × LC)),
    seg_pairs segs = some ps → ps.length = segs.length := by
  intro segs
  induction segs with
  | nil => intro ps hps; simp [seg_pairs] at hps; simp [hps.symm]
  | cons seg rest ih =>
    intro ps hps
    simp only [seg_pairs] at hps
    cases hkv : seg_key_value seg with
    | none => rw [hkv] at hps; simp at hps
    | some kv =>
      rw [hkv] at hps
      cases hrest : seg_pairs rest with
      | none => rw [hrest] at hps; simp at hps
      | some ps2 =>
        rw [hrest] at hps
        simp at hps
        subst hps
        simp [ih ps2 hrest]

lemma parse_segs_traced_ok {σ : Type} (h : σ → LC → LC → σ × Bool)
    (hacc : ∀ st k v, (h st k v).2 = true) :
    ∀ (segs : List LC) (ps : List (LC × LC)) (st : σ) (acc : List (LC × LC)),
      seg_pairs segs = some ps →
      parse_segs (traced h) (st, acc) segs = ((fold_st h st ps, acc ++ ps), true) := by
  intro segs
  induction segs with
  | nil =>
    intro ps st acc hps
    simp [seg_pairs] at hps
    subst hps
    simp [parse_segs, fold_st]
  | cons seg rest ih =>
    intro ps st acc hps
    simp only [seg_pairs] at hps
    cases hkv : seg_key_value seg with
    | none => rw [hkv] at hps; simp at hps
    | some kv =>
      rw [hkv] at hps
      cases hrest : seg_pairs rest with
      | none => rw [hrest] at hps; simp at hps
      | some ps2 =>
        rw [hrest] at hps
        simp only [Option.map_some] at hps
        obtain rfl : kv :: ps2 = ps := by simpa using hps
        simp only [parse_segs, hkv, traced, hacc, if_true]
        rw [ih ps2 _ _ hrest]
        simp [fold_st]

lemma parse_segs_traced_bad {σ : Type} (h : σ → LC → LC → σ × Bool)
    (hacc : ∀ st k v, (h st k v).2 = true) :
    ∀ (pre : List LC) (ps : List (LC × LC)) (bad : LC) (rest : List LC)
      (st : σ) (acc : List (LC × LC)),
      seg_pairs pre = some ps → seg_key_value bad = none →
      parse_segs (traced h) (st, acc) (pre ++ bad :: rest)
        = ((fold_st h st ps, acc ++ ps), false) := by
  intro pre
  induction pre with
  | nil =>
    intro ps bad rest st acc hps hbad
    simp [seg_pairs] at hps
    subst hps
    simp [parse_segs, hbad, fold_st]
  | cons seg pre2 ih =>
    intro ps bad rest st acc hps hbad
    simp only [seg_pairs] at hps
    cases hkv : seg_key_value seg with
    | none => rw [hkv] at hps; simp at hps
    | some kv =>
      rw [hkv] at hps
      cases hrest : seg_pairs pre2 with
      | none => rw [hrest] at hps; simp at hps
      | some ps2 =>
        rw [hrest] at hps
        simp only [Option.map_some] at hps
        obtain rfl : kv :: ps2 = ps := by simpa using hps
        simp only [List.cons_append, parse_segs, hkv, traced, hacc, if_true]
        exact (ih ps2 bad rest _ _ hrest hbad).trans (by simp [fold_st])

/-! Response codes from wrapper.hpp. -/

def c_success : Int := 0
def c_running : Int := -1
def c_error_internal_protocol_crashed : Int := -10
def c_error_internal_start : Int := -11
def c_error_internal_restart : Int := -12
def c_error_authentication_format : Int := -20
def c_error_authentication_set : Int := -21
def c_error_certificates_format : Int := -22
def c_error_certificates_set : Int := -23
def c_error_options_format : Int := -24
def c_error_options_set : Int := -25
def c_error_user_callback : Int := -30
def c_default_response_size_max : Nat := 2000000
def c_default_retries_max : Nat := 0
def c_default_retries_delay_ms : Nat := 100

/-! libcurl result codes used by async.cpp, and the HTTP statuses of the
    safe-to-restart set. -/

def c_curle_ok : Int := 0
def c_curle_couldnt_resolve_proxy : Int := 5
def c_curle_couldnt_resolve_host : Int := 6
def c_curle_couldnt_connect : Int := 7
def c_curle_ssl_connect_error : Int := 35
def c_curle_aborted_by_callback : Int := 42
def c_curle_peer_failed_verification : Int := 60

/-- The Options value object from options.hpp (field names follow the m_
    members; named OptionsCfg because Lean's library already has Options). -/
structure OptionsCfg where
  accept_compression : Bool
  connect_timeout : Int
  cookies : Bool
  follow_location : Int
  insecure : Bool
  maxredirs : Int
  proxy : LC
  rcpt_allow_fails : Bool
  timeout : Int
  verbose : Bool
deriving DecidableEq, Repr

/-- Authentication::Mode from authentication.hpp (none/basic/digest/bearer;
    the none variant is spelled auth_disabled to avoid Option.none). -/
inductive AuthMode
  | auth_disabled
  | basic
  | digest
  | bearer
deriving DecidableEq, Repr

/-- The Authentication value object from authentication.hpp. -/
structure AuthenticationCfg where
  mode : AuthMode
  user : LC
  secret : LC
deriving DecidableEq, Repr

/-- The Certificates value object from certificates.hpp. -/
structure CertificatesCfg where
  sslcert : LC
  sslcerttype : LC
  sslkey : LC
  sslkeytype : LC
  keypasswd : LC
  cainfo : LC
  capath : LC
  proxy_sslcert : LC
  proxy_sslcerttype : LC
  proxy_sslkey : LC
  proxy_sslkeytype : LC
  proxy_keypasswd : LC
  proxy_cainfo : LC
  proxy_capath : LC
  engine : LC
  ca_info_default : LC
  ca_path_default : LC
deriving DecidableEq, Repr

/-- From options.cpp Options::set: the CSKV handler.  Unknown keys are
    rejected; numeric values go through svtol, which leaves the field
    unchanged on failure; boolean fields compare the value against "1";
    m_follow_location is a long assigned from a bool comparison. -/
def Options_set_kv (o : OptionsCfg) (key value : LC) : OptionsCfg × Bool :=
  if key == lc (r"accept_compression") then
    ({ o with accept_compression := value == lc (r"1") }, true)
  else if key == lc (r"connect_timeout") then
    match svtol value with
    | some v => ({ o with connect_timeout := v }, true)
    | none => (o, false)
  else if key == lc (r"cookies") then
    ({ o with cookies := value == lc (r"1") }, true)
  else if key == lc (r"follow_location") then
    ({ o with follow_location := if value == lc (r"1") then 1 else 0 }, true)
  else if key == lc (r"insecure") then
    ({ o with insecure := value == lc (r"1") }, true)
  else if key == lc (r"maxredirs") then
    match svtol value with
    | some v => ({ o with maxredirs := v }, true)
    | none => (o, false)
  else if key == lc (r"proxy") then
    ({ o with proxy := value }, true)
  else if key == lc (r"timeout") then
    match svtol value with
    | some v => ({ o with timeout := v }, true)
    | none => (o, false)
  else if key == lc (r"verbose") then
    ({ o with verbose := value == lc (r"1") }, true)
  else (o, false)

/-- Options from options.hpp (named OptionsCfg to avoid clashing with Lean
    library names; field names follow the m_ members). -/
def Options_set (o : OptionsCfg) (s : LC) : OptionsCfg × Bool :=
  parse_cskv Options_set_kv o s

/-- From options.cpp Options::set_default (m_rcpt_allow_fails is not listed
    there; it keeps its member initializer false). -/
def Options_set_default : OptionsCfg :=
  { accept_compression := false, connect_timeout := 30000, cookies := false,
    follow_location := 0, insecure := false, maxredirs := 5, proxy := [],
    rcpt_allow_fails := false, timeout := 30000, verbose := false }

/-- From authentication.cpp Authentication::set: the CSKV handler. -/
def Authentication_set_kv (a : AuthenticationCfg) (key value : LC) : AuthenticationCfg × Bool :=
  if key == lc (r"mode") then
    if value == lc (r"bearer") then ({ a with mode := AuthMode.bearer }, true)
    else if value == lc (r"digest") then ({ a with mode := AuthMode.digest }, true)
    else if value == lc (r"basic") then ({ a with mode := AuthMode.basic }, true)
    else if value == lc (r"none") then ({ a with mode := AuthMode.auth_disabled }, true)
    else (a, false)
  else if key == lc (r"user") then ({ a with user := value }, true)
  else if key == lc (r"secret") then ({ a with secret := value }, true)
  else (a, false)

def Authentication_set (a : AuthenticationCfg) (s : LC) : AuthenticationCfg × Bool :=
  parse_cskv Authentication_set_kv a s

/-- From authentication.cpp Authentication::set_default. -/
def Authentication_set_default : AuthenticationCfg :=
  { mode := AuthMode.auth_disabled, user := [], secret := [] }

/-- From certificates.cpp Certificates::set: the CSKV handler. -/
def Certificates_set_kv (c : CertificatesCfg) (key value : LC) : CertificatesCfg × Bool :=
  if key == lc (r"sslcert") then ({ c with sslcert := value }, true)
  else if key == lc (r"sslcerttype") then ({ c with sslcerttype := value }, true)
  else if key == lc (r"sslkey") then ({ c with sslkey := value }, true)
  else if key == lc (r"sslkeytype") then ({ c with sslkeytype := value }, true)
  else if key == lc (r"keypasswd") then ({ c with keypasswd := value }, true)
  else if key == lc (r"cainfo") then ({ c with cainfo := value }, true)
  else if key == lc (r"capath") then ({ c with capath := value }, true)
  else if key == lc (r"proxy_sslcert") then ({ c with proxy_sslcert := value }, true)
  else if key == lc (r"proxy_sslcerttype") then ({ c with proxy_sslcerttype := value }, true)
  else if key == lc (r"proxy_sslkey") then ({ c with proxy_sslkey := value }, true)
  else if key == lc (r"proxy_sslkeytype") then ({ c with proxy_sslkeytype := value }, true)
  else if key == lc (r"proxy_keypasswd") then ({ c with proxy_keypasswd := value }, true)
  else if key == lc (r"proxy_cainfo") then ({ c with proxy_cainfo := value }, true)
  else if key == lc (r"proxy_capath") then ({ c with proxy_capath := value }, true)
  else if key == lc (r"engine") then ({ c with engine := value }, true)
  else (c, false)

def Certificates_set (c : CertificatesCfg) (s : LC) : CertificatesCfg × Bool :=
  parse_cskv Certificates_set_kv c s

/-- From certificates.cpp Certificates::set_default: every field cleared,
    then the CA defaults captured at engine start are stored. -/
def Certificates_set_default (ca_info ca_path : LC) : CertificatesCfg :=
  { sslcert := [], sslcerttype := [], sslkey := [], sslkeytype := [],
    keypasswd := [], cainfo := [], capath := [],
    proxy_sslcert := [], proxy_sslcerttype := [], proxy_sslkey := [],
    proxy_sslkeytype := [], proxy_keypasswd := [], proxy_cainfo := [],
    proxy_capath := [], engine := [],
    ca_info_default := ca_info, ca_path_default := ca_path }

/-! The Wrapper state machine from wrapper.hpp. -/

/-- Wrapper::State. -/
inductive ExecState
  | idle
  | running
  | finished
deriving DecidableEq, Repr

/-- The per-Handle state of Wrapper / WrapperBase (wrapper.hpp).  The user
    callback is modelled by an opaque identifier (Option Nat); the curl easy
    handle itself is outside the model. -/
structure WrapperState where
  exec_state : ExecState
  response_code : Int
  opts : OptionsCfg
  auth : AuthenticationCfg
  certs : CertificatesCfg
  user_cb : Option Nat
  user_cb_threaded : Bool
  response_size_max : Nat
  retries_max : Nat
  retries_delay_ms : Nat
  request_retries : Nat
  request_body : LC
  request_body_sent : Nat
  response_headers : List (LC × LC)
  response_body : LC
  header_content_length : Nat
deriving DecidableEq, Repr

/-- Wrapper::options: do_if_idle, then only if the response code is still
    c_success run m_options.set, recording c_error_options_format on a
    parse failure (the member is mutated by set even when it fails). -/
def wrapper_options (st : WrapperState) (s : LC) : WrapperState :=
  if st.exec_state = ExecState.idle then
    if st.response_code = c_success then
      let r := Options_set st.opts s
      if r.2 then { st with opts := r.1 }
      else { st with opts := r.1, response_code := c_error_options_format }
    else st
  else st

/-- Wrapper::authentication, same discipline as Wrapper::options. -/
def wrapper_authentication (st : WrapperState) (s : LC) : WrapperState :=
  if st.exec_state = ExecState.idle then
    if st.response_code = c_success then
      let r := Authentication_set st.auth s
      if r.2 then { st with auth := r.1 }
      else { st with auth := r.1, response_code := c_error_authentication_format }
    else st
  else st

/-- Wrapper::certificates, same discipline as Wrapper::options. -/
def wrapper_certificates (st : WrapperState) (s : LC) : WrapperState :=
  if st.exec_state = ExecState.idle then
    if st.response_code = c_success then
      let r := Certificates_set st.certs s
      if r.2 then { st with certs := r.1 }
      else { st with certs := r.1, response_code := c_error_certificates_format }
    else st
  else st

/-- Wrapper::threaded_callback. -/
def wrapper_threaded_callback (st : WrapperState) (mode : Bool) : WrapperState :=
  if st.exec_state = ExecState.idle then
    if st.response_code = c_success then { st with user_cb_threaded := mode } else st
  else st

/-- Wrapper::maximal_response_size. -/
def wrapper_maximal_response_size (st : WrapperState) (size : Nat) : WrapperState :=
  if st.exec_state = ExecState.idle then
    if st.response_code = c_success then { st with response_size_max := size } else st
  else st

/-- Wrapper::set_retries. -/
def wrapper_set_retries (st : WrapperState) (retries delay_ms : Nat) : WrapperState :=
  if st.exec_state = ExecState.idle then
    if st.response_code = c_success then
      { st with retries_max := retries, retries_delay_ms := delay_ms }
    else st
  else st

/-- Wrapper::clear (the generic part; clear_protocol is protocol specific):
    buffers emptied, counters reset, the response code set back to
    c_success, and the configuration restored from the engine defaults
    obtained through ASync::get_default. -/
def wrapper_clear (st : WrapperState)
    (d_opts : OptionsCfg) (d_auth : AuthenticationCfg) (d_certs : CertificatesCfg) :
    WrapperState :=
  { st with
    request_body := [], response_headers := [], response_body := [],
    request_body_sent := 0, header_content_length := 0,
    request_retries := 0, response_code := c_success,
    user_cb_threaded := true, user_cb := none,
    response_size_max := c_default_response_size_max,
    opts := d_opts, auth := d_auth, certs := d_certs }

/-- Wrapper::join's blocking condition: the condition variable is waited on
    exactly when m_exec_state != State::idle. -/
def wrapper_join_waits (st : WrapperState) : Bool :=
  st.exec_state != ExecState.idle

/-- Wrapper::can_reattempt: post-increment of m_request_retries compared
    against m_retries_max; returns the old-value comparison and the state
    with the incremented counter. -/
def wrapper_can_reattempt (st : WrapperState) : Bool × WrapperState :=
  (st.request_retries < st.retries_max, { st with request_retries := st.request_retries + 1 })

/-- Wrapper::use_threaded_cb: threaded delivery only when requested and a
    user callback is present. -/
def wrapper_use_threaded_cb (st : WrapperState) : Bool :=
  st.user_cb_threaded && st.user_cb.isSome

/-- Wrapper::get_code: the c_running sentinel while running, otherwise the
    stored response code. -/
def wrapper_get_code (st : WrapperState) : Int :=
  if st.exec_state = ExecState.running then c_running else st.response_code

/-- Wrapper::cb_protocol: invoke the user callback if one is pending.  On a
    normal return the callback is cleared; if the callback throws, the
    exception is caught here and the response code is overwritten with
    c_error_user_callback (the callback is then not cleared, since the
    assignment after the call never executes).  The second component tells
    whether the user callback was invoked. -/
def cb_protocol (st : WrapperState) (user_cb_throws : Bool) : WrapperState × Bool :=
  match st.user_cb with
  | none => (st, false)
  | some _ =>
    if user_cb_throws then ({ st with response_code := c_error_user_callback }, true)
    else ({ st with user_cb := none }, true)

/-- Environment oracles for Wrapper::start and the completion path: the
    outcomes of the protocol-specific prepare hook, of applying the three
    configuration objects to the curl handle, of ASync::start_request, and
    whether the user callback throws when invoked. -/
structure StartEnv where
  prepare_protocol_ok : Bool
  prepare_protocol_code : Int
  options_apply_ok : Bool
  authentication_apply_ok : Bool
  certificates_apply_ok : Bool
  start_request_ok : Bool
  user_cb_throws : Bool
deriving DecidableEq, Repr

/-- Wrapper::prepare_local: apply Options, Authentication, Certificates in
    that order; the first failure sets its distinct response code and stops. -/
def prepare_local (st : WrapperState) (env : StartEnv) : WrapperState × Bool :=
  if env.options_apply_ok then
    if env.authentication_apply_ok then
      if env.certificates_apply_ok then (st, true)
      else ({ st with response_code := c_error_certificates_set }, false)
    else ({ st with response_code := c_error_authentication_set }, false)
  else ({ st with response_code := c_error_options_set }, false)

/-- The protocol-specific prepare_protocol hook (pure virtual in
    wrapper.hpp): modelled by its outcome and the response code the concrete
    protocol records on failure. -/
def prepare_protocol (st : WrapperState) (env : StartEnv) : WrapperState × Bool :=
  if env.prepare_protocol_ok then (st, true)
  else ({ st with response_code := env.prepare_protocol_code }, false)

/-- Result of Wrapper::start: the new wrapper state, whether the user
    callback was invoked synchronously, and whether the request was handed
    to the engine. -/
structure StartResult where
  state : WrapperState
  user_cb_invoked : Bool
  engine_started : Bool
deriving DecidableEq, Repr

/-- Wrapper::start from wrapper.hpp: under the state lock, a non-idle state
    returns immediately with no effect at all; otherwise the pending
    callback is stored, and if the response code is still c_success the
    prepare hooks run, the state moves to running and the request is handed
    to ASync::start_request.  A registration failure reverts to idle and
    records c_error_internal_start.  On every path that did not hand the
    request to the engine, cb_protocol runs after the lock is released. -/
def wrapper_start (st : WrapperState) (cb : Option Nat) (env : StartEnv) : StartResult :=
  if st.exec_state != ExecState.idle then
    { state := st, user_cb_invoked := false, engine_started := false }
  else
    let st1 := { st with user_cb := cb }
    if st1.response_code = c_success then
      let p := prepare_protocol st1 env
      if p.2 then
        let q := prepare_local p.1 env
        if q.2 then
          if env.start_request_ok then
            { state := { q.1 with exec_state := ExecState.running },
              user_cb_invoked := false, engine_started := true }
          else
            let st2 := { q.1 with response_code := c_error_internal_start }
            let r := cb_protocol st2 env.user_cb_throws
            { state := r.1, user_cb_invoked := r.2, engine_started := false }
        else
          let r := cb_protocol q.1 env.user_cb_throws
          { state := r.1, user_cb_invoked := r.2, engine_started := false }
      else
        let r := cb_protocol p.1 env.user_cb_throws
        { state := r.1, user_cb_invoked := r.2, engine_started := false }
    else
      let r := cb_protocol st1 env.user_cb_throws
      { state := r.1, user_cb_invoked := r.2, engine_started := false }

/-- Wrapper::async_cb: store the result code, run finalize_protocol (a
    protocol hook that may throw — if it does, the exception escapes
    async_cb before the state changes), move to finished, run cb_protocol,
    then move to idle.  The second component tells whether an exception
    escaped async_cb. -/
def async_cb (st : WrapperState) (result : Int) (finalize_throws user_cb_throws : Bool) :
    WrapperState × Bool :=
  let st1 := { st with response_code := result }
  if finalize_throws then (st1, true)
  else
    let st2 := { st1 with exec_state := ExecState.finished }
    let r := cb_protocol st2 user_cb_throws
    ({ r.1 with exec_state := ExecState.idle }, false)

/-- The engine-side flags touched by ASync::invoke_wrapper. -/
structure EngineFlags where
  protocol_has_crashed : Bool
  nb_running_requests : Int
deriving DecidableEq, Repr

/-- ASync::invoke_wrapper from async.cpp: call the wrapper's async_cb inside
    a try/catch — only an exception escaping async_cb sets the sticky
    m_protocol_has_crashed flag — then decrement the running counter and
    release the in-flight strong reference. -/
def invoke_wrapper (e : EngineFlags) (st : WrapperState) (result : Int)
    (finalize_throws user_cb_throws : Bool) : EngineFlags × WrapperState :=
  let r := async_cb st result finalize_throws user_cb_throws
  ({ protocol_has_crashed := e.protocol_has_crashed || r.2,
     nb_running_requests := e.nb_running_requests - 1 }, r.1)

/-! The curl write and header sinks from async.cpp. -/

def c_content_length_key : LC := lc (r"content-length")

/-- insert_or_assign on the case-insensitive header map key_values_ci: if a
    key equal up to ASCII case is present its value is replaced (the stored
    key is kept), otherwise the pair is inserted. -/
def insert_or_assign_ci (m : List (LC × LC)) (k v : LC) : List (LC × LC) :=
  if m.any (fun p => equal_ascii_ci p.1 k) then
    m.map (fun p => if equal_ascii_ci p.1 k then (p.1, v) else p)
  else m ++ [(k, v)]

/-- ASync::curl_cb_write from async.cpp: when a content length was captured
    by the header callback it must not exceed get_max_response_size (else
    the write-error sentinel fails the transfer), the reservation is then
    marked consumed; a chunk whose append would push the body past
    get_max_response_size also fails; otherwise the chunk is appended and
    its byte count returned. -/
def curl_cb_write (chunk : LC) (w : WrapperState) : Option (WrapperState × Nat) :=
  let to_add := chunk.length
  if w.header_content_length > 0 then
    if w.header_content_length > w.response_size_max then none
    else
      let w1 := { w with header_content_length := 0 }
      if w1.response_body.length + to_add > w1.response_size_max then none
      else some ({ w1 with response_body := w1.response_body ++ chunk }, to_add)
  else
    if w.response_body.length + to_add > w.response_size_max then none
    else some ({ w with response_body := w.response_body ++ chunk }, to_add)

/-- ASync::curl_cb_header from async.cpp: split on the first colon (a line
    without one is consumed unchanged), trim key and value, ignore an empty
    key, special-case content-length through svtoul (a malformed value fails
    the transfer), and insert_or_assign into the case-insensitive header
    map.  Returns the full byte count on success. -/
def curl_cb_header (line : LC) (w : WrapperState) : Option (WrapperState × Nat) :=
  match line.findIdx? (fun c => c == ':') with
  | none => some (w, line.length)
  | some colon =>
    let key := trim (line.take colon)
    let value := trim (line.drop (colon + 1))
    if key.isEmpty then some (w, line.length)
    else
      if equal_ascii_ci key c_content_length_key then
        match svtoul value with
        | none => none
        | some n =>
          some ({ w with header_content_length := n,
                         response_headers := insert_or_assign_ci w.response_headers key value },
                line.length)
      else
        some ({ w with response_headers := insert_or_assign_ci w.response_headers key value },
              line.length)

/-! The completion / retry / abort paths of ASync (async.cpp), as a
    transition system over one in-flight transfer. -/

/-- safe_to_restart_outcome from async.cpp: the fixed safe-to-retry set. -/
def safe_to_restart_outcome (code : Int) : Bool :=
  code == c_curle_couldnt_resolve_host ||
  code == c_curle_couldnt_resolve_proxy ||
  code == c_curle_couldnt_connect ||
  code == c_curle_ssl_connect_error ||
  code == c_curle_peer_failed_verification ||
  code == 429 ||
  code == 503

/-- The engine-visible state of one started transfer: whether the opaque
    token (CURLOPT_PRIVATE, set by start_request and cleared by
    post_to_wrapper) still resolves to the wrapper; whether the easy handle
    is registered with the multiplexer; whether the per-handle retry timer
    is armed; the wrapper's retry counter and bound; and the ordered list of
    result codes actually delivered to the wrapper. -/
structure EngineHandleState where
  priv_token : Bool
  in_multi : Bool
  timer_armed : Bool
  request_retries : Nat
  retries_max : Nat
  delivered : List Int
deriving DecidableEq, Repr

/-- ASync::post_to_wrapper: clear CURLOPT_PRIVATE, then deliver the result
    code to the wrapper exactly once (via the callback queue or directly). -/
def post_to_wrapper (st : EngineHandleState) (code : Int) : EngineHandleState :=
  { st with priv_token := false, delivered := st.delivered ++ [code] }

/-- ASync::request_completed: resolve the wrapper through the opaque token
    (a cleared token means "already notified" and the call is a no-op);
    call can_reattempt (which always post-increments the retry counter) and,
    if it allowed a retry and the result code is safe to restart, arm the
    one-shot retry timer (timer_ok models uv_timer_init/uv_timer_start
    succeeding; on failure the original code falls through to delivery);
    otherwise hand the code to post_to_wrapper. -/
def request_completed (st : EngineHandleState) (code : Int) (timer_ok : Bool) :
    EngineHandleState :=
  if st.priv_token then
    let can := st.request_retries < st.retries_max
    let st1 := { st with request_retries := st.request_retries + 1 }
    if can ∧ safe_to_restart_outcome code = true then
      if timer_ok then { st1 with timer_armed := true }
      else post_to_wrapper st1 code
    else post_to_wrapper st1 code
  else st

/-- ASync::abort_request: under the loop mutex, curl_multi_remove_handle
    (which reports CURLM_OK whether the handle was present or already
    removed), then a synthesized completion with CURLE_ABORTED_BY_CALLBACK. -/
def abort_request (st : EngineHandleState) (timer_ok : Bool) : EngineHandleState :=
  request_completed { st with in_multi := false } c_curle_aborted_by_callback timer_ok

/-- The CURLMSG_DONE path of ASync::multi_fetch_messages: only a handle
    still registered with the multiplexer can be reported done; it is then
    removed and request_completed runs with the outcome code. -/
def multi_done (st : EngineHandleState) (code : Int) (timer_ok : Bool) : EngineHandleState :=
  if st.in_multi then request_completed { st with in_multi := false } code timer_ok else st

/-- ASync::uv_restart_cb: when the armed one-shot retry timer fires, the
    timer is closed and the easy handle re-added to the multiplexer; if the
    re-add fails the wrapper (if still resolvable) is notified through
    post_to_wrapper with c_error_internal_restart. -/
def uv_restart_fire (st : EngineHandleState) (readd_ok : Bool) : EngineHandleState :=
  if st.timer_armed then
    let st1 := { st with timer_armed := false }
    if readd_ok then { st1 with in_multi := true }
    else if st1.priv_token then post_to_wrapper st1 c_error_internal_restart else st1
  else st

/-- The events the environment can throw at one started transfer: the
    multiplexer reporting it done, a spurious completion event, a caller
    abort, and the retry timer firing. -/
inductive AEvent
  | done (code : Int) (timer_ok : Bool)
  | spurious (code : Int) (timer_ok : Bool)
  | abort (timer_ok : Bool)
  | retry_fire (readd_ok : Bool)
deriving DecidableEq, Repr

def astep (st : EngineHandleState) : AEvent → EngineHandleState
  | AEvent.done code t => multi_done st code t
  | AEvent.spurious code t => request_completed st code t
  | AEvent.abort t => abort_request st t
  | AEvent.retry_fire r => uv_restart_fire st r

def arun (st : EngineHandleState) (evs : List AEvent) : EngineHandleState :=
  evs.foldl astep st

/-- The state right after a successful Wrapper::start / ASync::start_request:
    token set, handle registered, timer not armed, no delivery yet. -/
def started_state (rmax : Nat) : EngineHandleState :=
  { priv_token := true, in_multi := true, timer_armed := false,
    request_retries := 0, retries_max := rmax, delivered := [] }

/-- The delivery invariant: the number of deliveries plus the live token
    never exceeds one. -/
def deliv_inv (st : EngineHandleState) : Prop :=
  st.delivered.length + (if st.priv_token then 1 else 0) ≤ 1

lemma deliv_inv_post (st : EngineHandleState) (code : Int)
    (hp : st.priv_token = true) (hinv : deliv_inv st) :
    deliv_inv (post_to_wrapper st code) := by
  have h1 : st.delivered.length + 1 ≤ 1 := by
    have h2 := hinv
    rw [deliv_inv, hp] at h2
    simpa using h2
  have h0 : st.delivered.length = 0 := by omega
  simp [deliv_inv, post_to_wrapper, h0]

lemma deliv_inv_request_completed (st : EngineHandleState) (code : Int) (t : Bool)
    (hinv : deliv_inv st) : deliv_inv (request_completed st code t) := by
  have hbump : deliv_inv { st with request_retries := st.request_retries + 1 } := by
    simpa [deliv_inv] using hinv
  by_cases hp : st.priv_token = true
  · by_cases hsafe : st.request_retries < st.retries_max ∧ safe_to_restart_outcome code = true
    · by_cases ht : t = true
      · have heq : request_completed st code t
            = { st with request_retries := st.request_retries + 1, timer_armed := true } := by
          simp [request_completed, hp, hsafe, ht]
        rw [heq]
        simpa [deliv_inv, hp] using hinv
      · have heq : request_completed st code t
            = post_to_wrapper { st with request_retries := st.request_retries + 1 } code := by
          simp [request_completed, hp, hsafe, ht]
        rw [heq]
        exact deliv_inv_post _ _ (by simpa using hp) hbump
    · have heq : request_completed st code t
          = post_to_wrapper { st with request_retries := st.request_retries + 1 } code := by
        simp [request_completed, hp, hsafe]
      rw [heq]
      exact deliv_inv_post _ _ (by simpa using hp) hbump
  · have heq : request_completed st code t = st := by
      simp [request_completed, hp]
    rw [heq]
    exact hinv

lemma deliv_inv_uv_restart (st : EngineHandleState) (r : Bool)
    (hinv : deliv_inv st) : deliv_inv (uv_restart_fire st r) := by
  by_cases ha : st.timer_armed = true
  · by_cases hr : r = true
    · have heq : uv_restart_fire st r = { st with timer_armed := false, in_multi := true } := by
        simp [uv_restart_fire, ha, hr]
      rw [heq]
      simpa [deliv_inv] using hinv
    · by_cases hp : st.priv_token = true
      · have heq : uv_restart_fire st r
            = post_to_wrapper { st with timer_armed := false } c_error_internal_restart := by
          simp [uv_restart_fire, ha, hr, hp]
        rw [heq]
        exact deliv_inv_post _ _ (by simpa using hp) (by simpa [deliv_inv] using hinv)
      · have heq : uv_restart_fire st r = { st with timer_armed := false } := by
          simp [uv_restart_fire, ha, hr, hp]
        rw [heq]
        simpa [deliv_inv] using hinv
  · have heq : uv_restart_fire st r = st := by
      simp [uv_restart_fire, ha]
    rw [heq]
    exact hinv

lemma deliv_inv_astep (st : EngineHandleState) (e : AEvent)
    (hinv : deliv_inv st) : deliv_inv (astep st e) := by
  cases e with
  | done code t =>
    rw [astep, multi_done]
    by_cases hm : st.in_multi = true
    · rw [if_pos hm]
      exact deliv_inv_request_completed _ _ _ (by simpa [deliv_inv] using hinv)
    · rw [if_neg hm]
      exact hinv
  | spurious code t =>
    exact deliv_inv_request_completed _ _ _ hinv
  | abort t =>
    rw [astep, abort_request]
    exact deliv_inv_request_completed _ _ _ (by simpa [deliv_inv] using hinv)
  | retry_fire r =>
    exact deliv_inv_uv_restart _ _ hinv

lemma deliv_inv_le_one (st : EngineHandleState) (h : deliv_inv st) :
    st.delivered.length ≤ 1 := by
  rw [deliv_inv] at h
  by_cases hp : st.priv_token = true
  · rw [if_pos hp] at h; omega
  · rw [if_neg hp] at h; omega

lemma deliv_inv_arun (st : EngineHandleState) (evs : List AEvent)
    (hinv : deliv_inv st) : deliv_inv (arun st evs) := by
  induction evs generalizing st with
  | nil => simpa [arun] using hinv
  | cons e rest ih =>
    have h1 : deliv_inv (astep st e) := deliv_inv_astep st e hinv
    simpa [arun] using ih (astep st e) h1

/-! The retry path's effect on the wrapper buffers (for the retry/response
    interaction), and concrete sample states. -/

/-- What the restart path does to the WrapperBase buffers between two
    attempts: ASync::request_completed (retry branch) only arms the timer,
    and ASync::uv_restart_cb (async.cpp:660-687) only closes the timer and
    re-adds the easy handle to the multiplexer.  Neither touches
    m_response_body, m_response_headers or m_header_content_length, so the
    wrapper buffers enter the next attempt unchanged. -/
def restart_wrapper_buffers (w : WrapperState) : WrapperState := w

/-- Two attempts of one retried transfer as seen by the body sink: the bytes
    of the first (failed) attempt are written by curl_cb_write, the restart
    path runs, then the bytes of the second attempt are written. -/
def two_attempt_retry_body (first second : LC) (w : WrapperState) : Option WrapperState :=
  match curl_cb_write first w with
  | none => none
  | some r1 =>
    match curl_cb_write second (restart_wrapper_buffers r1.1) with
    | none => none
    | some r2 => some r2.1

/-- A freshly cleared Handle: idle, success code, engine-default
    configuration, empty buffers. -/
def sample_wrapper : WrapperState :=
  { exec_state := ExecState.idle, response_code := c_success,
    opts := Options_set_default, auth := Authentication_set_default,
    certs := Certificates_set_default [] [],
    user_cb := none, user_cb_threaded := true,
    response_size_max := c_default_response_size_max,
    retries_max := c_default_retries_max,
    retries_delay_ms := c_default_retries_delay_ms,
    request_retries := 0, request_body := [], request_body_sent := 0,
    response_headers := [], response_body := [], header_content_length := 0 }

/-- A Handle with a transfer in flight and a pending user callback. -/
def sample_wrapper_running : WrapperState :=
  { sample_wrapper with exec_state := ExecState.running, user_cb := some 0 }

/-- A Handle whose transfer just finished, before the callback completed. -/
def sample_wrapper_finished : WrapperState :=
  { sample_wrapper with exec_state := ExecState.finished }

/-- A Handle on which a setter already recorded a configuration error. -/
def sample_wrapper_error : WrapperState :=
  { sample_wrapper with response_code := c_error_options_format }

/-- A default environment for Wrapper::start: everything succeeds. -/
def sample_env : StartEnv :=
  { prepare_protocol_ok := true, prepare_protocol_code := 0,
    options_apply_ok := true, authentication_apply_ok := true,
    certificates_apply_ok := true, start_request_ok := true,
    user_cb_throws := false }

/-! Claim theorems. -/

/-- Claim C1: for every start() of a Handle, the completion callback is
    delivered at most once — along any sequence of completion, spurious
    completion, abort and retry-timer events the engine performs at most one
    delivery, because post_to_wrapper clears the opaque token at the single
    point of final delivery and request_completed resolves nothing once the
    token is cleared. -/
theorem completion_delivered_at_most_once :
    (∀ (rmax : Nat) (evs : List AEvent),
        (arun (started_state rmax) evs).delivered.length ≤ 1)
    ∧ (∀ (st : EngineHandleState) (code : Int) (t : Bool),
        st.priv_token = false → request_completed st code t = st) := by
  constructor
  · intro rmax evs
    have h0 : deliv_inv (started_state rmax) := by simp [deliv_inv, started_state]
    exact deliv_inv_le_one _ (deliv_inv_arun _ evs h0)
  · intro st code t h
    simp [request_completed, h]

/-- Witness for C1: a concrete trace (completion with a retryable 503, a
    failing retry-timer fire, then a spurious completion and an abort) still
    delivers at most once, and a concrete already-notified handle is left
    untouched by a further completion. -/
theorem completion_delivered_at_most_once_witness :
    (arun (started_state 1)
        [AEvent.done 503 true, AEvent.retry_fire false,
         AEvent.spurious 200 true, AEvent.abort true]).delivered.length ≤ 1
    ∧ request_completed
        { priv_token := false, in_multi := false, timer_armed := false,
          request_retries := 1, retries_max := 1,
          delivered := [c_error_internal_restart] } 200 true
      = { priv_token := false, in_multi := false, timer_armed := false,
          request_retries := 1, retries_max := 1,
          delivered := [c_error_internal_restart] } :=
  ⟨completion_delivered_at_most_once.1 1
      [AEvent.done 503 true, AEvent.retry_fire false,
       AEvent.spurious 200 true, AEvent.abort true],
   completion_delivered_at_most_once.2 _ 200 true rfl⟩

/-- Claim C3: with the transfer still resolvable and no timer armed, the
    retry timer is armed iff can_reattempt allowed the retry and the result
    code is in the fixed safe-to-retry set (given the uv timer calls
    succeed); any other result code is delivered immediately with the token
    cleared; an armed retry delivers nothing; and when the timer fires, a
    failed re-add routes to the normal completion path with the internal
    restart-failed code while a successful re-add re-registers the handle. -/
theorem retry_arming_and_routing (st : EngineHandleState) (code : Int)
    (hp : st.priv_token = true) (ht : st.timer_armed = false) :
    ((request_completed st code true).timer_armed = true
        ↔ (st.request_retries < st.retries_max ∧ safe_to_restart_outcome code = true))
    ∧ (¬ (st.request_retries < st.retries_max ∧ safe_to_restart_outcome code = true) →
        ∀ t, (request_completed st code t).delivered = st.delivered ++ [code]
          ∧ (request_completed st code t).priv_token = false)
    ∧ ((st.request_retries < st.retries_max ∧ safe_to_restart_outcome code = true) →
        (request_completed st code true).delivered = st.delivered
          ∧ (request_completed st code true).priv_token = true)
    ∧ (∀ st2 : EngineHandleState, st2.timer_armed = true → st2.priv_token = true →
        (uv_restart_fire st2 false).delivered = st2.delivered ++ [c_error_internal_restart]
        ∧ (uv_restart_fire st2 true).delivered = st2.delivered
        ∧ (uv_restart_fire st2 true).in_multi = true) := by
  refine ⟨?_, ?_, ?_, ?_⟩
  · by_cases hsafe : st.request_retries < st.retries_max ∧ safe_to_restart_outcome code = true
    · simp [request_completed, hp, hsafe]
    · simp [request_completed, hp, hsafe, post_to_wrapper, ht]
  · intro hsafe t
    simp [request_completed, hp, hsafe, post_to_wrapper]
  · intro hsafe
    simp [request_completed, hp, hsafe]
  · intro st2 ha2 hp2
    refine ⟨?_, ?_, ?_⟩ <;> simp [uv_restart_fire, ha2, hp2, post_to_wrapper]

/-- Witness for C3: a retryable 503 on a handle with one retry left arms the
    timer; a non-retryable 404 is delivered immediately; a failed re-add
    after the timer fires delivers the internal restart-failed code. -/
theorem retry_arming_and_routing_witness :
    (request_completed (started_state 1) 503 true).timer_armed = true
    ∧ (request_completed (started_state 1) 404 true).delivered = [(404 : Int)]
    ∧ (uv_restart_fire
        { priv_token := true, in_multi := false, timer_armed := true,
          request_retries := 1, retries_max := 1, delivered := [] } false).delivered
      = [c_error_internal_restart] := by
  have h503 := retry_arming_and_routing (started_state 1) 503 rfl rfl
  have h404 := retry_arming_and_routing (started_state 1) 404 rfl rfl
  refine ⟨h503.1.mpr (by decide), ?_, ?_⟩
  · have := (h404.2.1 (by decide) true).1
    simpa [started_state] using this
  · have := (h503.2.2.2
        { priv_token := true, in_multi := false, timer_armed := true,
          request_retries := 1, retries_max := 1, delivered := [] } rfl rfl).1
    simpa using this

/-- Claim C4 (code bug): after an automatic retry the delivered body is not
    only the final attempt's data.  A first attempt that received the three
    bytes err (for instance the body of a 503 response) followed by a retry
    whose attempt receives ok leaves errok in the response body, because
    nothing on the restart path clears the accumulated buffers. -/
theorem retry_mixes_previous_attempt_body :
    (two_attempt_retry_body (lc (r"err")) (lc (r"ok")) sample_wrapper).map
        (fun w => w.response_body)
      = some (lc (r"errok"))
    ∧ lc (r"errok") ≠ lc (r"ok") := by
  constructor
  · rfl
  · decide

/-- Counterexample to claim C5: a delivery in which the user callback throws
    (finalize_protocol does not) sets the response code to the dedicated
    callback-crashed code, yet the Engine's protocol_crashed flag stays
    false — the exception is caught inside Wrapper::cb_protocol and never
    escapes async_cb, so ASync::invoke_wrapper's catch never runs. -/
theorem user_callback_crash_flag_counterexample :
    (invoke_wrapper { protocol_has_crashed := false, nb_running_requests := 1 }
        sample_wrapper_running 200 false true).2.response_code = c_error_user_callback
    ∧ (invoke_wrapper { protocol_has_crashed := false, nb_running_requests := 1 }
        sample_wrapper_running 200 false true).1.protocol_has_crashed = false := by
  constructor
  · rfl
  · rfl

/-- Claim C5 as amended: when the user callback throws during a delivery the
    response code becomes the callback-crashed code but the Engine's sticky
    protocol_crashed flag is unchanged; the flag is monotone (sticky), and
    it becomes true exactly through an exception escaping async_cb itself
    (modelled by finalize_protocol throwing). -/
theorem user_callback_crash_amended (e : EngineFlags) (st : WrapperState) (result : Int)
    (h : st.user_cb.isSome = true) :
    (invoke_wrapper e st result false true).2.response_code = c_error_user_callback
    ∧ (invoke_wrapper e st result false true).1.protocol_has_crashed = e.protocol_has_crashed
    ∧ (∀ finalize_throws user_cb_throws, e.protocol_has_crashed = true →
        (invoke_wrapper e st result finalize_throws user_cb_throws).1.protocol_has_crashed = true)
    ∧ (∀ user_cb_throws,
        (invoke_wrapper e st result true user_cb_throws).1.protocol_has_crashed = true) := by
  obtain ⟨cb0, hid⟩ := Option.isSome_iff_exists.mp h
  refine ⟨?_, ?_, ?_, ?_⟩
  · simp [invoke_wrapper, async_cb, cb_protocol, hid]
  · simp [invoke_wrapper, async_cb, cb_protocol, hid]
  · intro ft ut hcr
    simp [invoke_wrapper, hcr]
  · intro ut
    simp [invoke_wrapper, async_cb]

/-- Witness for the amended C5 at a concrete running Handle. -/
theorem user_callback_crash_amended_witness :
    (invoke_wrapper { protocol_has_crashed := true, nb_running_requests := 2 }
        sample_wrapper_running 200 false true).2.response_code = c_error_user_callback
    ∧ (invoke_wrapper { protocol_has_crashed := true, nb_running_requests := 2 }
        sample_wrapper_running 200 false true).1.protocol_has_crashed = true := by
  have h := user_callback_crash_amended
      { protocol_has_crashed := true, nb_running_requests := 2 }
      sample_wrapper_running 200 (by decide)
  exact ⟨h.1, h.2.2.1 false true rfl⟩

/-- Claim C6: a successful curl_cb_write invocation leaves the accumulated
    body within the Handle's configured maximum response size; a declared
    content length above that maximum fails the transfer, and so does a
    chunk whose append would push the body past the maximum. -/
theorem write_respects_max_response_size :
    (∀ (chunk : LC) (w w2 : WrapperState) (n : Nat),
        curl_cb_write chunk w = some (w2, n) →
        w2.response_body.length ≤ w.response_size_max)
    ∧ (∀ (chunk : LC) (w : WrapperState),
        w.header_content_length > w.response_size_max → curl_cb_write chunk w = none)
    ∧ (∀ (chunk : LC) (w : WrapperState),
        w.response_body.length + chunk.length > w.response_size_max →
        curl_cb_write chunk w = none) := by
  refine ⟨?_, ?_, ?_⟩
  · intro chunk w w2 n h
    by_cases h1 : w.header_content_length > 0
    · by_cases h2 : w.header_content_length > w.response_size_max
      · simp [curl_cb_write, h1, h2] at h
      · by_cases h3 : w.response_body.length + chunk.length > w.response_size_max
        · simp [curl_cb_write, h1, h2, h3] at h
        · simp [curl_cb_write, h1, h2, h3] at h
          have hb := h.1
          have : w2.response_body = w.response_body ++ chunk := by rw [← hb]
          rw [this]
          simp
          omega
    · by_cases h3 : w.response_body.length + chunk.length > w.response_size_max
      · simp [curl_cb_write, h1, h3] at h
      · simp [curl_cb_write, h1, h3] at h
        have hb := h.1
        have : w2.response_body = w.response_body ++ chunk := by rw [← hb]
        rw [this]
        simp
        omega
  · intro chunk w h2
    have h1 : w.header_content_length > 0 := by omega
    simp [curl_cb_write, h1, h2]
  · intro chunk w h3
    by_cases h1 : w.header_content_length > 0
    · by_cases h2 : w.header_content_length > w.response_size_max
      · simp [curl_cb_write, h1, h2]
      · simp [curl_cb_write, h1, h2, h3]
    · simp [curl_cb_write, h1, h3]

/-- Witness for C6 at concrete states: a small write stays within the cap, a
    3 MB declared content length on a 2 MB cap fails, and a one-byte append
    over a full one-byte buffer fails. -/
theorem write_respects_max_response_size_witness :
    ({ sample_wrapper with response_body := [ 'a' ] } : WrapperState).response_body.length
        ≤ sample_wrapper.response_size_max
    ∧ curl_cb_write [ 'x' ] { sample_wrapper with header_content_length := 3000000 } = none
    ∧ curl_cb_write [ 'y' ]
        { sample_wrapper with response_size_max := 1, response_body := [ 'a' ] } = none := by
  refine ⟨?_, ?_, ?_⟩
  · exact write_respects_max_response_size.1 [ 'a' ] sample_wrapper
      { sample_wrapper with response_body := [ 'a' ] } 1 (by decide)
  · exact write_respects_max_response_size.2.1 [ 'x' ]
      { sample_wrapper with header_content_length := 3000000 } (by decide)
  · exact write_respects_max_response_size.2.2 [ 'y' ]
      { sample_wrapper with response_size_max := 1, response_body := [ 'a' ] } (by decide)

/-- Claim C7: calling start() on a Handle that is not idle changes nothing —
    the state (including configuration and the pending callback of the first
    start) is returned unchanged, the second call's user callback is never
    invoked, and the request is not handed to the engine. -/
theorem start_noop_when_not_idle (st : WrapperState) (cb : Option Nat) (env : StartEnv)
    (h : st.exec_state ≠ ExecState.idle) :
    wrapper_start st cb env
      = { state := st, user_cb_invoked := false, engine_started := false } := by
  simp [wrapper_start, h]

/-- Witness for C7: a second start (with a different callback) on a running
    Handle is a no-op. -/
theorem start_noop_when_not_idle_witness :
    wrapper_start sample_wrapper_running (some 7) sample_env
      = { state := sample_wrapper_running, user_cb_invoked := false,
          engine_started := false } :=
  start_noop_when_not_idle sample_wrapper_running (some 7) sample_env (by decide)

/-- Counterexample to claim C8: join() is not a no-op in the finished state —
    Wrapper::join waits on the condition variable whenever the state is not
    idle, so a Handle in the finished state (completion arrived, callback
    delivery not yet done) still blocks. -/
theorem join_finished_counterexample :
    wrapper_join_waits sample_wrapper_finished = true
    ∧ sample_wrapper_finished.exec_state = ExecState.finished := by
  constructor
  · rfl
  · rfl

/-- Claim C8 as amended: join() blocks on the condition variable whenever
    the Handle's state is running or finished, and returns immediately only
    when the state is already idle. -/
theorem join_blocks_iff_not_idle (st : WrapperState) :
    wrapper_join_waits st
      = (decide (st.exec_state = ExecState.running)
          || decide (st.exec_state = ExecState.finished)) := by
  cases h : st.exec_state <;> simp [wrapper_join_waits, h]

/-- Claim C9: once an idle-state setter has recorded a non-success response
    code, every subsequent options/authentication/certificates call leaves
    the whole Handle state (configuration objects and response code)
    unchanged, until clear() resets the code to success and restores the
    engine's default configuration. -/
theorem setters_preserve_first_error (st : WrapperState)
    (h : st.response_code ≠ c_success) (s1 s2 s3 : LC)
    (d_opts : OptionsCfg) (d_auth : AuthenticationCfg) (d_certs : CertificatesCfg) :
    wrapper_options st s1 = st
    ∧ wrapper_authentication st s2 = st
    ∧ wrapper_certificates st s3 = st
    ∧ (wrapper_clear st d_opts d_auth d_certs).response_code = c_success
    ∧ (wrapper_clear st d_opts d_auth d_certs).opts = d_opts
    ∧ (wrapper_clear st d_opts d_auth d_certs).auth = d_auth
    ∧ (wrapper_clear st d_opts d_auth d_certs).certs = d_certs := by
  refine ⟨?_, ?_, ?_, rfl, rfl, rfl, rfl⟩
  · by_cases hi : st.exec_state = ExecState.idle <;> simp [wrapper_options, hi, h]
  · by_cases hi : st.exec_state = ExecState.idle <;> simp [wrapper_authentication, hi, h]
  · by_cases hi : st.exec_state = ExecState.idle <;> simp [wrapper_certificates, hi, h]

/-- Witness for C9: on a Handle with a recorded options-format error, the
    three setters are no-ops and clear() restores success and the given
    defaults. -/
theorem setters_preserve_first_error_witness :
    wrapper_options sample_wrapper_error (lc (r"verbose=1")) = sample_wrapper_error
    ∧ (wrapper_clear sample_wrapper_error Options_set_default Authentication_set_default
        (Certificates_set_default [] [])).response_code = c_success := by
  have h := setters_preserve_first_error sample_wrapper_error (by decide)
      (lc (r"verbose=1")) [] [] Options_set_default Authentication_set_default
      (Certificates_set_default [] [])
  exact ⟨h.1, h.2.2.2.1⟩

/-- Claim C10: a header line without a colon, or whose key is empty after
    trimming, is consumed successfully by curl_cb_header — the full byte
    count is returned and the wrapper state (header map and stored content
    length included) is unchanged. -/
theorem header_no_colon_or_empty_key_no_effect (line : LC) (w : WrapperState)
    (h : line.findIdx? (fun c => c == ':') = none
        ∨ ∃ i, line.findIdx? (fun c => c == ':') = some i ∧ trim (line.take i) = []) :
    curl_cb_header line w = some (w, line.length) := by
  cases h with
  | inl hnone => simp [curl_cb_header, hnone]
  | inr hkey =>
    obtain ⟨i, hi, hk⟩ := hkey
    simp [curl_cb_header, hi, hk]

/-- Witness for C10: a colon-less line and a line whose key trims to empty
    both leave a concrete wrapper state unchanged and return the line
    length. -/
theorem header_no_colon_or_empty_key_no_effect_witness :
    curl_cb_header [ 'x', 'y' ] sample_wrapper = some (sample_wrapper, 2)
    ∧ curl_cb_header [ ' ', ':', 'v' ] sample_wrapper = some (sample_wrapper, 3) :=
  ⟨header_no_colon_or_empty_key_no_effect [ 'x', 'y' ] sample_wrapper (Or.inl (by decide)),
   header_no_colon_or_empty_key_no_effect [ ' ', ':', 'v' ] sample_wrapper
     (Or.inr ⟨1, by decide, by decide⟩)⟩

/-- Claim C2: for a CSKV input whose comma segments all contain an = sign,
    parse_cskv invokes the handler exactly once per segment, in left-to-right
    order, on the whitespace-trimmed key and value of each segment (the
    invocation trace equals the segment pair list, whose length is the
    number of segments), and returns true; if some segment contains no =,
    the parse returns false and the handler was invoked exactly on the
    segments before the first such segment.  The handler is assumed to
    accept every pair (a rejecting handler stops the parse itself). -/
theorem parse_cskv_handler_invocations {σ : Type} (h : σ → LC → LC → σ × Bool)
    (st : σ) (s : LC) (hacc : ∀ st k v, (h st k v).2 = true) :
    (∀ ps, seg_pairs (split_commas s) = some ps →
        parse_cskv (traced h) (st, []) s = ((fold_st h st ps, ps), true)
        ∧ ps.length = (split_commas s).length)
    ∧ (∀ pre ps bad rest, split_commas s = pre ++ bad :: rest →
        seg_pairs pre = some ps → seg_key_value bad = none →
        parse_cskv (traced h) (st, []) s = ((fold_st h st ps, ps), false)) := by
  constructor
  · intro ps hps
    refine ⟨?_, seg_pairs_length _ _ hps⟩
    rw [parse_cskv_eq_segs]
    simpa using parse_segs_traced_ok h hacc _ ps st [] hps
  · intro pre ps bad rest hsplit hps hbad
    rw [parse_cskv_eq_segs, hsplit]
    simpa using parse_segs_traced_bad h hacc pre ps bad rest st [] hps hbad

/-- Witness for C2: on the concrete input " a = 1 ,b=2" (two segments) the
    traced parse invokes the handler exactly twice, on the trimmed pairs
    (a, 1) then (b, 2), and succeeds; on "a=1,oops,b=2" the parse fails at
    the =-less second segment after exactly one invocation. -/
theorem parse_cskv_handler_invocations_witness :
    parse_cskv (traced (fun (x : Nat) k v => (x + k.length + v.length, true)))
        ((0, []) : Nat × List (LC × LC)) (lc (r" a = 1 ,b=2"))
      = ((4, [(lc (r"a"), lc (r"1")), (lc (r"b"), lc (r"2"))]), true)
    ∧ parse_cskv (traced (fun (x : Nat) k v => (x + k.length + v.length, true)))
        ((0, []) : Nat × List (LC × LC)) (lc (r"a=1,oops,b=2"))
      = ((2, [(lc (r"a"), lc (r"1"))]), false) := by
  constructor
  · have happ := (parse_cskv_handler_invocations
        (fun (x : Nat) k v => (x + k.length + v.length, true)) 0 (lc (r" a = 1 ,b=2"))
        (fun _ _ _ => rfl)).1
        [(lc (r"a"), lc (r"1")), (lc (r"b"), lc (r"2"))]
        (by rw [split_commas, split_commas, split_commas]; decide)
    exact happ.1.trans (by decide)
  · have happ := (parse_cskv_handler_invocations
        (fun (x : Nat) k v => (x + k.length + v.length, true)) 0 (lc (r"a=1,oops,b=2"))
        (fun _ _ _ => rfl)).2
        [lc (r"a=1")] [(lc (r"a"), lc (r"1"))] (lc (r"oops")) [lc (r"b=2")]
        (by rw [split_commas, split_commas, split_commas, split_commas]; decide)
        (by decide) (by decide)
    exact happ.trans (by decide)

end curlev
